import Mathlib

/-!
Shallow embedding of the benchmark extraction-and-aggregation pipeline
(`extract_cloudwatch_logs.py`, `extract_k6_metrics.py`,
`recalculate_cpu_maximums.py`) and proofs of its specification claims.

Numeric values are modelled as rationals `ℚ`; Python float parsing is an
abstract parameter `parseFloat : String → Option ℚ` (`float(s)` succeeding
with a value, or raising `ValueError`, which the code catches).

Python dicts with string keys are modelled as association lists
(`List (String × ℚ)`) in insertion order, looked up with `List.lookup`.
-/

namespace Spec2Proof

/-- A metric record: a Python dict mapping metric names to numeric values,
kept in insertion order. -/
abbrev Record := List (String × ℚ)

/-! ## Shared cross-run aggregator body

`calculate_average_metrics` appears twice in the repository with an
identical loop body (`extract_k6_metrics.py` lines 125-145 and
`extract_cloudwatch_logs.py` lines 155-175); only the empty-input guard
differs.  The common body is embedded once here. -/

namespace Aggregator

/-- One iteration of the inner loop: `counters`/`sums` are kept as a single
association list `(key, counter, sum)`.  For a fresh key the code first
initialises `counters[k] = 0`, `sums[k] = 0` (appending the key at the end,
matching Python dict insertion order) and then adds `1` and `v`. -/
def bump : List (String × ℕ × ℚ) → String → ℚ → List (String × ℕ × ℚ)
  | [], k, v => [(k, 1, v)]
  | (k', c, s) :: rest, k, v =>
    if k' = k then (k', c + 1, s + v) :: rest else (k', c, s) :: bump rest k v

/-- The inner loop `for metric_key, metric_value in metrics.items()`. -/
def addRecord (st : List (String × ℕ × ℚ)) (r : Record) : List (String × ℕ × ℚ) :=
  r.foldl (fun st kv => bump st kv.1 kv.2) st

/-- The outer loop `for metrics in all_metrics` over empty initial
`counters`/`sums`. -/
def tally (all_metrics : List Record) : List (String × ℕ × ℚ) :=
  all_metrics.foldl addRecord []

/-- The final loop: `average_metrics[k] = sums[k] / counters[k]` for every
key with `counters[k] > 0` (the guard is in the code, though every tallied
counter is positive). -/
def averageMetrics (all_metrics : List Record) : Record :=
  (tally all_metrics).filterMap fun kcs =>
    if 0 < kcs.2.1 then some (kcs.1, kcs.2.2 / (kcs.2.1 : ℚ)) else none

/-- Specification-side count: how many records contain key `k`. -/
def cntK (ms : List Record) (k : String) : ℕ :=
  (ms.filter fun r => (r.lookup k).isSome).length

/-- Specification-side sum of the values at key `k` over the records that
contain `k`. -/
def sumK (ms : List Record) (k : String) : ℚ :=
  (ms.filterMap fun r => r.lookup k).sum

/-- `combine o c s`: the effect on one key's `(counter, sum)` entry of
tallying `c` further occurrences summing to `s` (proof device for the
fold invariants below). -/
def combine (o : Option (ℕ × ℚ)) (c : ℕ) (s : ℚ) : Option (ℕ × ℚ) :=
  if c = 0 then o
  else
    match o with
    | some cs => some (cs.1 + c, cs.2 + s)
    | none => some (c, s)

end Aggregator

/-! ## `extract_cloudwatch_logs.py` -/

namespace ExtractCloudwatchLogs

/-- Python's `str.lower()`: lower-case each character. -/
def pyLower (s : String) : String :=
  ⟨s.data.map Char.toLower⟩

/-- A CloudWatch log event.  `message` holds the comma-split,
quote-stripped parts of the event's message string
(`[part.strip('"') for part in message.split(',')]`); an event whose
`message` field is missing or empty (`if not message: continue`) is
modelled by `[]` (a non-empty string always splits into at least one
part). -/
structure Event where
  message : List String

/-- Per-operation latency statistics, the dict built for one operation
bucket (lines 94-103 / 109-118). -/
structure LatencyStats where
  total_requests : ℕ
  latency_min : ℚ
  latency_max : ℚ
  latency_avg : ℚ
  latency_median : ℚ
  latency_p90 : ℚ
  latency_p95 : ℚ
  latency_p99 : ℚ
deriving DecidableEq, Repr

/-- The Python dict literal for a `LatencyStats`, in insertion order. -/
def LatencyStats.toRecord (m : LatencyStats) : Record :=
  [("total_requests", (m.total_requests : ℚ)),
   ("latency_min", m.latency_min),
   ("latency_max", m.latency_max),
   ("latency_avg", m.latency_avg),
   ("latency_median", m.latency_median),
   ("latency_p90", m.latency_p90),
   ("latency_p95", m.latency_p95),
   ("latency_p99", m.latency_p99)]

/-- `latencies.sort()`: Python's ascending in-place sort.  On a list of
rationals any comparison sort yields the same (unique) sorted permutation,
so the structurally recursive `insertionSort` is used as the executable
model. -/
def pysort (l : List ℚ) : List ℚ :=
  List.insertionSort (· ≤ ·) l

/-- The statistics dict computed from one non-empty latency bucket
(lines 92-103, identically 107-118).

Percentile indices: Python computes `int(0.9 * n)` etc. in double
precision.  Since the doubles nearest to 0.9, 0.95, 0.99 differ from the
exact rationals by less than 2⁻⁵³ relatively, `float(q) * n` rounds to
exactly `q·n` whenever `q·n` is an integer and otherwise stays within
2⁻³⁰ of `q·n` (whose distance to the nearest integer is at least 1/100),
for every list length `n` ≤ 2⁵⁰.  Hence `int(0.9*n) = ⌊9n/10⌋ = 9*n/10`
in natural division, and likewise for 0.95 and 0.99. -/
def latencyStatsOf (l : List ℚ) : LatencyStats :=
  let s := pysort l
  let n := l.length
  { total_requests := n
    latency_min := s.getD 0 0
    latency_max := s.getD (n - 1) 0
    latency_avg := s.sum / (n : ℚ)
    latency_median :=
      if n % 2 = 1 then s.getD (n / 2) 0
      else (s.getD (n / 2 - 1) 0 + s.getD (n / 2) 0) / 2
    latency_p90 := s.getD (9 * n / 10) 0
    latency_p95 := s.getD (19 * n / 20) 0
    latency_p99 := s.getD (99 * n / 100) 0 }

/-- The body of the event loop (lines 44-75) acting on the accumulator
`(serialize_latencies, deserialize_latencies)`.  `parseFloat` models
`float(latency_str)` (`none` = `ValueError`, skipped with a warning);
values strictly greater than 1 are skipped as outliers; surviving values
are appended to the bucket selected by `operation.lower()`. -/
def processEvent (parseFloat : String → Option ℚ)
    (acc : List ℚ × List ℚ) (ev : Event) : List ℚ × List ℚ :=
  if ev.message.isEmpty then acc
  else if 6 ≤ ev.message.length then
    let operation := ev.message.getD 2 ""
    let latency_str := ev.message.getD 5 ""
    match parseFloat latency_str with
    | none => acc
    | some latency =>
      if 1 < latency then acc
      else if pyLower operation = "serialize" then (acc.1 ++ [latency], acc.2)
      else if pyLower operation = "deserialize" then (acc.1, acc.2 ++ [latency])
      else acc
  else acc

/-- The per-bucket conditional (lines 91 and 106): the key for an
operation is put into the `metrics` dict only when its bucket is
non-empty; an empty bucket contributes no record at all. -/
def bucketEntry (latencies : List ℚ) : Option Record :=
  if latencies.isEmpty then none else some (latencyStatsOf latencies).toRecord

/-- `extract_cloudwatch_logs_metrics` from the event list onwards
(lines 42-123).  The returned value models the Python return:
`.ok []` for the early `return []` when both buckets are empty,
`.ok [deserialize_dict, serialize_dict]` for the final
`return [metrics['deserialize'], metrics['serialize']]`, and
`.error` for the `KeyError` that this final statement raises when only
one of the keys was put into `metrics`. -/
def extract_cloudwatch_logs_metrics (parseFloat : String → Option ℚ)
    (events : List Event) : Except String (List Record) :=
  let p := events.foldl (processEvent parseFloat) ([], [])
  let serialize_latencies := p.1
  let deserialize_latencies := p.2
  if serialize_latencies.isEmpty && deserialize_latencies.isEmpty then .ok []
  else
    match bucketEntry deserialize_latencies, bucketEntry serialize_latencies with
    | some d, some s => .ok [d, s]
    | _, _ => .error "KeyError"

/-- One iteration of the per-file loop of `process_cloudwatch_logs`
(lines 215-230), accumulating
`(all_deserialize_metrics, all_serialize_metrics)`.  The destructuring
`[deserialize_metrics, serialize_metrics] = ...` raises `ValueError` on a
list of any other length; that and the `KeyError` above are both caught by
the generic `except` clause, which skips the file. -/
def processFile (acc : List Record × List Record)
    (result : Except String (List Record)) : List Record × List Record :=
  match result with
  | .error _ => acc
  | .ok [d, s] => (acc.1 ++ [d], acc.2 ++ [s])
  | .ok _ => acc

/-- `calculate_average_metrics` of `extract_cloudwatch_logs.py`
(lines 142-175): on an empty input it returns the empty dict `{}`
(lines 152-153); otherwise the shared aggregation body runs. -/
def calculate_average_metrics (all_metrics : List Record) : Record :=
  if all_metrics.isEmpty then [] else Aggregator.averageMetrics all_metrics

/-- The per-service tail of `process_cloudwatch_logs` (lines 232-240):
fold the per-file results, and if both accumulated lists are non-empty,
average each. -/
def aggregateService (results : List (Except String (List Record))) :
    Option (Record × Record) :=
  let p := results.foldl processFile ([], [])
  if !p.1.isEmpty && !p.2.isEmpty then
    some (calculate_average_metrics p.1, calculate_average_metrics p.2)
  else none

end ExtractCloudwatchLogs

/-! ## `extract_k6_metrics.py` -/

namespace ExtractK6

/-- One entry of the top-level `metrics` mapping of a k6 result file.
`values` models `metric.get('values', {})`; a missing `values` key behaves
exactly like an empty dict, so it is represented by `[]`. -/
structure Metric where
  values : Record
deriving DecidableEq, Repr

/-- A k6 result file.  `metrics` models `data.get('metrics', {})`; a file
without a `metrics` key behaves like `[]`. -/
structure K6Data where
  metrics : List (String × Metric)
deriving DecidableEq

/-- `req_duration.get('values', {}).get(key, 0)`. -/
def vget (m : Metric) (k : String) : ℚ :=
  (m.values.lookup k).getD 0

/-- `is_rest = 'http_req_duration' in data.get('metrics', {})` (line 38). -/
def is_rest (d : K6Data) : Bool :=
  (d.metrics.lookup "http_req_duration").isSome

/-- `is_grpc = 'grpc_req_duration' in data.get('metrics', {})` (line 37). -/
def is_grpc (d : K6Data) : Bool :=
  (d.metrics.lookup "grpc_req_duration").isSome

/-- Lines 41-44: the `data_sent` block. -/
def dataSentBlock (d : K6Data) : Record :=
  match d.metrics.lookup "data_sent" with
  | some m => [("data_sent_count", vget m "count"), ("data_sent_rate", vget m "rate")]
  | none => []

/-- Lines 46-49: the `data_received` block. -/
def dataReceivedBlock (d : K6Data) : Record :=
  match d.metrics.lookup "data_received" with
  | some m => [("data_received_count", vget m "count"), ("data_received_rate", vget m "rate")]
  | none => []

/-- The seven `request_duration_*` assignments, shared verbatim between the
REST branch (lines 54-60) and the gRPC branch (lines 63-69). -/
def requestDurationEntries (m : Metric) : Record :=
  [("request_duration_avg", vget m "avg"),
   ("request_duration_min", vget m "min"),
   ("request_duration_max", vget m "max"),
   ("request_duration_median", vget m "med"),
   ("request_duration_p90", vget m "p(90)"),
   ("request_duration_p95", vget m "p(95)"),
   ("request_duration_p99", vget m "p(99)")]

/-- Lines 52-69: `if is_rest and 'http_req_duration' in metrics: ...
elif is_grpc and 'grpc_req_duration' in metrics: ...`.  The conjunction
`is_rest and 'http_req_duration' in metrics` is modelled by guarding the
lookup with `is_rest` (they coincide, since `is_rest` is defined as that
key's presence). -/
def durationBlock (d : K6Data) : Record :=
  match (if is_rest d then d.metrics.lookup "http_req_duration" else none) with
  | some m => requestDurationEntries m
  | none =>
    match (if is_grpc d then d.metrics.lookup "grpc_req_duration" else none) with
    | some m => requestDurationEntries m
    | none => []

/-- Lines 72-74: the `vus_max` block. -/
def vusBlock (d : K6Data) : Record :=
  match d.metrics.lookup "vus_max" with
  | some m => [("vus_max", vget m "value")]
  | none => []

/-- The two throughput assignments (identical in both branches apart from
the source metric). -/
def throughputEntries (m : Metric) : Record :=
  [("throughput_requests_per_second", vget m "rate"),
   ("throughput_total_requests", vget m "count")]

/-- Lines 77-85: `if is_rest and 'http_reqs' in metrics: ...
elif is_grpc and 'iterations' in metrics: ...`. -/
def throughputBlock (d : K6Data) : Record :=
  match (if is_rest d then d.metrics.lookup "http_reqs" else none) with
  | some m => throughputEntries m
  | none =>
    match (if is_grpc d then d.metrics.lookup "iterations" else none) with
    | some m => throughputEntries m
    | none => []

/-- Lines 88-92: the `checks` block. -/
def checksBlock (d : K6Data) : Record :=
  match d.metrics.lookup "checks" with
  | some m =>
    [("success_rate_rate", vget m "rate"),
     ("success_rate_passes", vget m "passes"),
     ("success_rate_fails", vget m "fails")]
  | none => []

/-- `extract_k6_metrics` (lines 34-94): the `metrics` dict is populated by
the successive blocks; since each block uses its own key names, sequential
dict insertion is concatenation. -/
def extract_k6_metrics (d : K6Data) : Record :=
  dataSentBlock d ++ dataReceivedBlock d ++ durationBlock d ++
    vusBlock d ++ throughputBlock d ++ checksBlock d

/-- `calculate_average_metrics` of `extract_k6_metrics.py` (lines 111-145):
an empty input raises `Exception("No metrics to average")` (lines 121-123);
otherwise the shared aggregation body runs. -/
def calculate_average_metrics (all_metrics : List Record) : Except String Record :=
  if all_metrics.isEmpty then .error "No metrics to average"
  else .ok (Aggregator.averageMetrics all_metrics)

/-- The metric names populated only by the protocol-specific
request-duration branch. -/
def requestDurationKeys : List String :=
  ["request_duration_avg", "request_duration_min", "request_duration_max",
   "request_duration_median", "request_duration_p90", "request_duration_p95",
   "request_duration_p99"]

/-- The metric names populated only by the protocol-specific throughput
branch. -/
def throughputKeys : List String :=
  ["throughput_requests_per_second", "throughput_total_requests"]

end ExtractK6

/-! ## `recalculate_cpu_maximums.py` -/

namespace RecalculateCpuMaximums

/-- One CloudWatch datapoint; the `Maximum` field is optional
(`if 'Maximum' in datapoint`). -/
structure Datapoint where
  Maximum : Option ℚ
deriving DecidableEq, Repr

/-- One metrics file; the `Datapoints` array is optional
(`if 'Datapoints' not in data: return 0.0`).  A file that fails to open or
parse takes the same `return 0.0` path through the generic handler, so it
can also be modelled by `Datapoints := none`. -/
structure MetricFile where
  Datapoints : Option (List Datapoint)
deriving DecidableEq, Repr

/-- Python's `max` on a non-empty list, as a left fold from the head;
the `[]` case is unreachable in the code (guarded by `if not max_values`)
and is given the dummy value 0. -/
def pymax : List ℚ → ℚ
  | [] => 0
  | v :: vs => vs.foldl max v

/-- `get_maximum_value_from_file` (lines 32-62): collect the `Maximum` of
every datapoint that has one and return their maximum, or 0.0 when the
`Datapoints` key or all `Maximum` fields are absent. -/
def get_maximum_value_from_file (f : MetricFile) : ℚ :=
  match f.Datapoints with
  | none => 0
  | some dps =>
    let max_values := dps.filterMap (·.Maximum)
    if max_values.isEmpty then 0 else pymax max_values

/-- The aggregation tail of `calculate_metric_value` (lines 107-137), from
the list of per-run files onwards (the directory walk selects the files):
keep each file's maximum if it is positive, then take the absolute maximum
for `cpu`/`memory` and the mean of the maxima otherwise; `none` models the
two `return None` paths. -/
def calculate_metric_value (metric_type : String) (metric_files : List MetricFile) :
    Option (ℚ × ℕ × String) :=
  if metric_files.isEmpty then none
  else
    let maximum_values :=
      (metric_files.map get_maximum_value_from_file).filter (fun v => 0 < v)
    if maximum_values.isEmpty then none
    else
      let final_value :=
        if metric_type = "cpu" ∨ metric_type = "memory" then pymax maximum_values
        else maximum_values.sum / (maximum_values.length : ℚ)
      let unit := if metric_type = "cpu" ∨ metric_type = "memory" then "Percent" else "Bytes"
      some (final_value, maximum_values.length, unit)

end RecalculateCpuMaximums

/-- A concrete stand-in for Python's `float` parser, used to instantiate
the abstract `parseFloat` parameter on the handful of literals appearing
in concrete runs. -/
def parseFloatDemo (s : String) : Option ℚ :=
  if s = "0.5" then some (mkRat 1 2)
  else if s = "1.0" then some 1
  else if s = "1.0001" then some (mkRat 10001 10000)
  else none

/-! ## Aggregator lemmas -/

/-- Unfolding lemma for `List.lookup` over string-keyed association lists. -/
theorem lookup_cons {β : Type} (k k' : String) (v : β) (l : List (String × β)) :
    ((k', v) :: l).lookup k = if k = k' then some v else l.lookup k := by
  rcases eq_or_ne k k' with h | h
  · subst h
    simp [List.lookup]
  · have hb : (k == k') = false := beq_eq_false_iff_ne.mpr h
    simp [List.lookup, hb, h]

/-- `List.lookup` distributes over append: the first list wins. -/
theorem lookup_append {β : Type} (l₁ l₂ : List (String × β)) (k : String) :
    (l₁ ++ l₂).lookup k = (l₁.lookup k).or (l₂.lookup k) := by
  induction l₁ with
  | nil => simp [List.lookup]
  | cons hd tl ih =>
    obtain ⟨k₀, v⟩ := hd
    by_cases hk : k = k₀ <;> simp [lookup_cons, hk, ih]

namespace Aggregator

theorem lookup_bump_self (st : List (String × ℕ × ℚ)) (k : String) (v : ℚ) :
    (bump st k v).lookup k = combine (st.lookup k) 1 v := by
  induction st with
  | nil => simp [bump, combine, List.lookup, lookup_cons]
  | cons hd tl ih =>
    obtain ⟨k', c, s⟩ := hd
    by_cases hk : k' = k
    · subst hk
      simp [bump, combine, lookup_cons]
    · simp [bump, hk, lookup_cons, Ne.symm hk, ih]

theorem lookup_bump_ne (st : List (String × ℕ × ℚ)) (k k' : String) (v : ℚ)
    (h : k' ≠ k) : (bump st k v).lookup k' = st.lookup k' := by
  induction st with
  | nil => simp [bump, lookup_cons, h]
  | cons hd tl ih =>
    obtain ⟨k₀, c, s⟩ := hd
    by_cases hk : k₀ = k
    · subst hk
      simp [bump, lookup_cons, h]
    · by_cases hk' : k' = k₀ <;> simp [bump, hk, lookup_cons, hk', ih]

theorem lookup_eq_none_of_not_mem_keys {r : Record} {k : String}
    (h : k ∉ r.map Prod.fst) : r.lookup k = none := by
  induction r with
  | nil => simp [List.lookup]
  | cons hd tl ih =>
    simp only [List.map_cons, List.mem_cons] at h
    push_neg at h
    obtain ⟨k₀, v₀⟩ := hd
    rw [lookup_cons, if_neg h.1]
    exact ih h.2

theorem lookup_addRecord (r : Record) (hr : (r.map Prod.fst).Nodup)
    (st : List (String × ℕ × ℚ)) (k : String) :
    (addRecord st r).lookup k =
      combine (st.lookup k) (if (r.lookup k).isSome then 1 else 0)
        ((r.lookup k).getD 0) := by
  induction r generalizing st with
  | nil => simp [addRecord, List.lookup, combine]
  | cons hd tl ih =>
    obtain ⟨k₀, v₀⟩ := hd
    simp only [List.map_cons, List.nodup_cons] at hr
    have step : addRecord st ((k₀, v₀) :: tl) = addRecord (bump st k₀ v₀) tl := rfl
    by_cases hk : k₀ = k
    · subst hk
      have htl : tl.lookup k₀ = none := lookup_eq_none_of_not_mem_keys hr.1
      rw [step, ih hr.2, htl, lookup_bump_self]
      simp [lookup_cons, combine]
    · rw [step, ih hr.2, lookup_bump_ne st k₀ k v₀ (Ne.symm hk),
        lookup_cons, if_neg (Ne.symm hk)]

theorem combine_combine (o : Option (ℕ × ℚ)) (c₁ c₂ : ℕ) (s₁ s₂ : ℚ)
    (h₁ : c₁ = 0 → s₁ = 0) (h₂ : c₂ = 0 → s₂ = 0) :
    combine (combine o c₁ s₁) c₂ s₂ = combine o (c₁ + c₂) (s₁ + s₂) := by
  by_cases hc₁ : c₁ = 0
  · subst hc₁
    rw [h₁ rfl]
    simp [combine]
  · by_cases hc₂ : c₂ = 0
    · subst hc₂
      rw [h₂ rfl]
      cases o <;> simp [combine, hc₁]
    · cases o <;> simp [combine, hc₁, hc₂, Nat.add_eq_zero, add_assoc]

theorem cntK_cons (r : Record) (ms : List Record) (k : String) :
    cntK (r :: ms) k = (if (r.lookup k).isSome then 1 else 0) + cntK ms k := by
  cases h : (r.lookup k).isSome <;> simp [cntK, List.filter, h, Nat.add_comm]

theorem sumK_cons (r : Record) (ms : List Record) (k : String) :
    sumK (r :: ms) k = (r.lookup k).getD 0 + sumK ms k := by
  cases h : r.lookup k <;> simp [sumK, List.filterMap, h]

theorem sumK_eq_zero_of_cntK_eq_zero {ms : List Record} {k : String}
    (h : cntK ms k = 0) : sumK ms k = 0 := by
  induction ms with
  | nil => simp [sumK]
  | cons r ms ih =>
    rw [cntK_cons] at h
    rw [sumK_cons]
    cases hr : r.lookup k with
    | none =>
      simp only [hr] at h ⊢
      simpa using ih (by omega)
    | some v => simp [hr] at h

theorem lookup_foldl_addRecord (ms : List Record)
    (hms : ∀ r ∈ ms, (r.map Prod.fst).Nodup)
    (st : List (String × ℕ × ℚ)) (k : String) :
    (ms.foldl addRecord st).lookup k =
      combine (st.lookup k) (cntK ms k) (sumK ms k) := by
  induction ms generalizing st with
  | nil => simp [cntK, sumK, combine]
  | cons r ms ih =>
    have hr := hms r (List.mem_cons_self r ms)
    have hms' : ∀ r' ∈ ms, (r'.map Prod.fst).Nodup :=
      fun r' h' => hms r' (List.mem_cons_of_mem r h')
    rw [List.foldl_cons, ih hms', lookup_addRecord r hr, combine_combine,
      cntK_cons, sumK_cons]
    · cases hl : r.lookup k <;> simp [hl]
    · exact fun h => sumK_eq_zero_of_cntK_eq_zero h

theorem lookup_tally (ms : List Record)
    (hms : ∀ r ∈ ms, (r.map Prod.fst).Nodup) (k : String) :
    (tally ms).lookup k =
      if cntK ms k = 0 then none else some (cntK ms k, sumK ms k) := by
  rw [tally, lookup_foldl_addRecord ms hms]
  simp [List.lookup, combine]

theorem pos_of_mem_bump : ∀ (st : List (String × ℕ × ℚ)) (k : String) (v : ℚ),
    (∀ e ∈ st, 0 < e.2.1) → ∀ e ∈ bump st k v, 0 < e.2.1 := by
  intro st
  induction st with
  | nil =>
    intro k v _ e he
    simp only [bump, List.mem_singleton] at he
    subst he
    exact Nat.one_pos
  | cons hd tl ih =>
    intro k v hst e he
    obtain ⟨k₀, c, s⟩ := hd
    simp only [bump] at he
    by_cases hk : k₀ = k
    · rw [if_pos hk] at he
      rcases List.mem_cons.mp he with rfl | he'
      · exact Nat.succ_pos c
      · exact hst e (List.mem_cons_of_mem _ he')
    · rw [if_neg hk] at he
      rcases List.mem_cons.mp he with rfl | he'
      · exact hst _ (List.mem_cons_self _ _)
      · exact ih k v (fun x hx => hst x (List.mem_cons_of_mem _ hx)) e he'

theorem pos_of_mem_addRecord (r : Record) (st : List (String × ℕ × ℚ))
    (hst : ∀ e ∈ st, 0 < e.2.1) : ∀ e ∈ addRecord st r, 0 < e.2.1 := by
  induction r generalizing st with
  | nil => exact hst
  | cons hd tl ih =>
    exact ih (bump st hd.1 hd.2) (pos_of_mem_bump st hd.1 hd.2 hst)

theorem pos_of_mem_tally (ms : List Record) : ∀ e ∈ tally ms, 0 < e.2.1 := by
  have aux : ∀ (ms : List Record) (st : List (String × ℕ × ℚ)),
      (∀ e ∈ st, 0 < e.2.1) → ∀ e ∈ ms.foldl addRecord st, 0 < e.2.1 := by
    intro ms
    induction ms with
    | nil => exact fun st hst => hst
    | cons r ms ih =>
      exact fun st hst => ih (addRecord st r) (pos_of_mem_addRecord r st hst)
  exact aux ms [] (by simp)

theorem filterMap_guard_eq_map (l : List (String × ℕ × ℚ))
    (hl : ∀ e ∈ l, 0 < e.2.1) :
    (l.filterMap fun kcs =>
        if 0 < kcs.2.1 then some (kcs.1, kcs.2.2 / (kcs.2.1 : ℚ)) else none) =
      l.map (fun kcs => (kcs.1, kcs.2.2 / (kcs.2.1 : ℚ))) := by
  induction l with
  | nil => simp
  | cons e tl ih =>
    have he : 0 < e.2.1 := hl e (List.mem_cons_self _ _)
    simp only [List.filterMap_cons, List.map_cons, if_pos he]
    rw [ih (fun x hx => hl x (List.mem_cons_of_mem _ hx))]

theorem averageMetrics_eq_map (ms : List Record) :
    averageMetrics ms =
      (tally ms).map (fun kcs => (kcs.1, kcs.2.2 / (kcs.2.1 : ℚ))) := by
  rw [averageMetrics]
  exact filterMap_guard_eq_map (tally ms) (pos_of_mem_tally ms)

theorem lookup_map_avg (l : List (String × ℕ × ℚ)) (k : String) :
    (l.map (fun kcs => (kcs.1, kcs.2.2 / (kcs.2.1 : ℚ)))).lookup k =
      (l.lookup k).map (fun cs => cs.2 / (cs.1 : ℚ)) := by
  induction l with
  | nil => simp [List.lookup]
  | cons hd tl ih =>
    obtain ⟨k₀, cs⟩ := hd
    by_cases hk : k = k₀ <;> simp [lookup_cons, hk, ih]

/-- The key contract of the shared aggregator body: each key present in at
least one record maps to (sum over records containing it) / (number of
records containing it). -/
theorem lookup_averageMetrics (ms : List Record) (k : String)
    (hms : ∀ r ∈ ms, (r.map Prod.fst).Nodup) (hk : 0 < cntK ms k) :
    (averageMetrics ms).lookup k = some (sumK ms k / (cntK ms k : ℚ)) := by
  rw [averageMetrics_eq_map, lookup_map_avg, lookup_tally ms hms,
    if_neg (by omega)]
  rfl

end Aggregator

/-! ## Sorted-statistics lemmas -/

namespace ExtractCloudwatchLogs

theorem pysort_sorted (l : List ℚ) : (pysort l).Sorted (· ≤ ·) :=
  List.sorted_insertionSort _ l

theorem pysort_length (l : List ℚ) : (pysort l).length = l.length :=
  List.length_insertionSort _ l

theorem pysort_eq_of_sorted {l : List ℚ} (h : l.Sorted (· ≤ ·)) : pysort l = l :=
  h.insertionSort_eq

theorem sorted_getD_le {s : List ℚ} (hs : s.Sorted (· ≤ ·)) {i j : ℕ}
    (hij : i ≤ j) (hj : j < s.length) : s.getD i 0 ≤ s.getD j 0 := by
  have hi : i < s.length := lt_of_le_of_lt hij hj
  rw [List.getD_eq_getElem s 0 hi, List.getD_eq_getElem s 0 hj]
  rcases Nat.eq_or_lt_of_le hij with h | hlt
  · subst h
    exact le_refl _
  · have := hs.rel_get_of_lt (a := ⟨i, hi⟩) (b := ⟨j, hj⟩) hlt
    simpa [List.get_eq_getElem] using this

theorem floor_q_mul (a b n : ℕ) (hb : (b : ℚ) ≠ 0) :
    ⌊((a : ℚ) / (b : ℚ)) * n⌋₊ = a * n / b := by
  rw [div_mul_eq_mul_div, ← Nat.cast_mul, Nat.floor_div_eq_div]

end ExtractCloudwatchLogs

/-! ## Claims -/

/-- **C1**: for every non-empty ascending-sorted sequence `S` of `n`
latency observations in one operation bucket, the percentile at quantile
`q ∈ {0.9, 0.95, 0.99}` computed by `extract_cloudwatch_logs_metrics` is
`S[⌊q·n⌋]`, the element at index `⌊q·n⌋` of the sorted sequence, with no
interpolation.  (In the source the index is `int(q * n)` in double
precision, which coincides with `⌊q·n⌋` — see `latencyStatsOf`.) -/
theorem percentile_at_fixed_quantiles_is_floor_index (S : List ℚ)
    (hne : S ≠ []) (hsort : S.Sorted (· ≤ ·)) :
    (ExtractCloudwatchLogs.latencyStatsOf S).latency_p90 =
        S.getD ⌊(0.9 : ℚ) * S.length⌋₊ 0 ∧
    (ExtractCloudwatchLogs.latencyStatsOf S).latency_p95 =
        S.getD ⌊(0.95 : ℚ) * S.length⌋₊ 0 ∧
    (ExtractCloudwatchLogs.latencyStatsOf S).latency_p99 =
        S.getD ⌊(0.99 : ℚ) * S.length⌋₊ 0 := by
  have h90 : ⌊(0.9 : ℚ) * S.length⌋₊ = 9 * S.length / 10 := by
    rw [show (0.9 : ℚ) = ((9 : ℕ) : ℚ) / ((10 : ℕ) : ℚ) by norm_num]
    exact ExtractCloudwatchLogs.floor_q_mul 9 10 S.length (by norm_num)
  have h95 : ⌊(0.95 : ℚ) * S.length⌋₊ = 19 * S.length / 20 := by
    rw [show (0.95 : ℚ) = ((19 : ℕ) : ℚ) / ((20 : ℕ) : ℚ) by norm_num]
    exact ExtractCloudwatchLogs.floor_q_mul 19 20 S.length (by norm_num)
  have h99 : ⌊(0.99 : ℚ) * S.length⌋₊ = 99 * S.length / 100 := by
    rw [show (0.99 : ℚ) = ((99 : ℕ) : ℚ) / ((100 : ℕ) : ℚ) by norm_num]
    exact ExtractCloudwatchLogs.floor_q_mul 99 100 S.length (by norm_num)
  refine ⟨?_, ?_, ?_⟩ <;>
    simp [ExtractCloudwatchLogs.latencyStatsOf,
      ExtractCloudwatchLogs.pysort_eq_of_sorted hsort, h90, h95, h99]

/-- **C1** witness: the theorem instantiated at sorted inputs of length
1, 2 and 10. -/
theorem percentile_floor_index_examples :
    ((ExtractCloudwatchLogs.latencyStatsOf [5]).latency_p90 =
        ([5] : List ℚ).getD ⌊(0.9 : ℚ) * ([5] : List ℚ).length⌋₊ 0 ∧
      (ExtractCloudwatchLogs.latencyStatsOf [5]).latency_p95 =
        ([5] : List ℚ).getD ⌊(0.95 : ℚ) * ([5] : List ℚ).length⌋₊ 0 ∧
      (ExtractCloudwatchLogs.latencyStatsOf [5]).latency_p99 =
        ([5] : List ℚ).getD ⌊(0.99 : ℚ) * ([5] : List ℚ).length⌋₊ 0) ∧
    ((ExtractCloudwatchLogs.latencyStatsOf [3, 4]).latency_p90 =
        ([3, 4] : List ℚ).getD ⌊(0.9 : ℚ) * ([3, 4] : List ℚ).length⌋₊ 0 ∧
      (ExtractCloudwatchLogs.latencyStatsOf [3, 4]).latency_p95 =
        ([3, 4] : List ℚ).getD ⌊(0.95 : ℚ) * ([3, 4] : List ℚ).length⌋₊ 0 ∧
      (ExtractCloudwatchLogs.latencyStatsOf [3, 4]).latency_p99 =
        ([3, 4] : List ℚ).getD ⌊(0.99 : ℚ) * ([3, 4] : List ℚ).length⌋₊ 0) ∧
    ((ExtractCloudwatchLogs.latencyStatsOf
          [1, 2, 3, 4, 5, 6, 7, 8, 9, 10]).latency_p90 =
        ([1, 2, 3, 4, 5, 6, 7, 8, 9, 10] : List ℚ).getD
          ⌊(0.9 : ℚ) * ([1, 2, 3, 4, 5, 6, 7, 8, 9, 10] : List ℚ).length⌋₊ 0 ∧
      (ExtractCloudwatchLogs.latencyStatsOf
          [1, 2, 3, 4, 5, 6, 7, 8, 9, 10]).latency_p95 =
        ([1, 2, 3, 4, 5, 6, 7, 8, 9, 10] : List ℚ).getD
          ⌊(0.95 : ℚ) * ([1, 2, 3, 4, 5, 6, 7, 8, 9, 10] : List ℚ).length⌋₊ 0 ∧
      (ExtractCloudwatchLogs.latencyStatsOf
          [1, 2, 3, 4, 5, 6, 7, 8, 9, 10]).latency_p99 =
        ([1, 2, 3, 4, 5, 6, 7, 8, 9, 10] : List ℚ).getD
          ⌊(0.99 : ℚ) * ([1, 2, 3, 4, 5, 6, 7, 8, 9, 10] : List ℚ).length⌋₊ 0) :=
  ⟨percentile_at_fixed_quantiles_is_floor_index [5] (by decide) (by decide),
   percentile_at_fixed_quantiles_is_floor_index [3, 4] (by decide) (by decide),
   percentile_at_fixed_quantiles_is_floor_index [1, 2, 3, 4, 5, 6, 7, 8, 9, 10]
     (by decide) (by decide)⟩

/-- **C7**: for every non-empty sorted sequence of valid latency
observations in one operation bucket, the median computed by
`extract_cloudwatch_logs_metrics` is the single middle element when the
length is odd and the arithmetic mean of the two central elements when the
length is even. -/
theorem median_parity (S : List ℚ) (hne : S ≠ []) (hsort : S.Sorted (· ≤ ·)) :
    (S.length % 2 = 1 →
      (ExtractCloudwatchLogs.latencyStatsOf S).latency_median =
        S.getD ((S.length - 1) / 2) 0) ∧
    (S.length % 2 = 0 →
      (ExtractCloudwatchLogs.latencyStatsOf S).latency_median =
        (S.getD (S.length / 2 - 1) 0 + S.getD (S.length / 2) 0) / 2) := by
  constructor
  · intro hpar
    have hidx : S.length / 2 = (S.length - 1) / 2 := by omega
    simp [ExtractCloudwatchLogs.latencyStatsOf,
      ExtractCloudwatchLogs.pysort_eq_of_sorted hsort, hpar, hidx]
  · intro hpar
    have hpar' : ¬ S.length % 2 = 1 := by omega
    simp [ExtractCloudwatchLogs.latencyStatsOf,
      ExtractCloudwatchLogs.pysort_eq_of_sorted hsort, hpar']

/-- **C7** witness: `[1,2,3,4,5]` has median `3`; `[1,2,3,4]` has median
`5/2 = 2.5`. -/
theorem median_parity_examples :
    (ExtractCloudwatchLogs.latencyStatsOf [1, 2, 3, 4, 5]).latency_median = 3 ∧
    (ExtractCloudwatchLogs.latencyStatsOf [1, 2, 3, 4]).latency_median = 5 / 2 :=
  ⟨((median_parity [1, 2, 3, 4, 5] (by decide) (by decide)).1
      (by decide)).trans
      (by norm_num [List.getD_cons_succ, List.getD_cons_zero]),
   ((median_parity [1, 2, 3, 4] (by decide) (by decide)).2
      (by decide)).trans
      (by norm_num [List.getD_cons_succ, List.getD_cons_zero])⟩

/-- **C9**: every per-operation statistics record produced from a
non-empty bucket satisfies `min ≤ median ≤ max`, `p90 ≤ p95 ≤ p99` and
`total_requests > 0`; an empty bucket puts no record into the `metrics`
dict (rather than a zero-filled one). -/
theorem latency_stats_invariants (l : List ℚ) (hne : l ≠ []) :
    (ExtractCloudwatchLogs.latencyStatsOf l).latency_min ≤
        (ExtractCloudwatchLogs.latencyStatsOf l).latency_median ∧
    (ExtractCloudwatchLogs.latencyStatsOf l).latency_median ≤
        (ExtractCloudwatchLogs.latencyStatsOf l).latency_max ∧
    (ExtractCloudwatchLogs.latencyStatsOf l).latency_p90 ≤
        (ExtractCloudwatchLogs.latencyStatsOf l).latency_p95 ∧
    (ExtractCloudwatchLogs.latencyStatsOf l).latency_p95 ≤
        (ExtractCloudwatchLogs.latencyStatsOf l).latency_p99 ∧
    0 < (ExtractCloudwatchLogs.latencyStatsOf l).total_requests ∧
    ExtractCloudwatchLogs.bucketEntry [] = none := by
  have hn : 0 < l.length := List.length_pos.mpr hne
  have hsort := ExtractCloudwatchLogs.pysort_sorted l
  have hlen := ExtractCloudwatchLogs.pysort_length l
  have key : ∀ i j : ℕ, i ≤ j → j < l.length →
      (ExtractCloudwatchLogs.pysort l).getD i 0 ≤
        (ExtractCloudwatchLogs.pysort l).getD j 0 := by
    intro i j hij hj
    exact ExtractCloudwatchLogs.sorted_getD_le hsort hij (by omega)
  set n := l.length with hn_def
  have e_min : (ExtractCloudwatchLogs.latencyStatsOf l).latency_min =
      (ExtractCloudwatchLogs.pysort l).getD 0 0 := rfl
  have e_max : (ExtractCloudwatchLogs.latencyStatsOf l).latency_max =
      (ExtractCloudwatchLogs.pysort l).getD (n - 1) 0 := rfl
  have e_med : (ExtractCloudwatchLogs.latencyStatsOf l).latency_median =
      (if n % 2 = 1 then (ExtractCloudwatchLogs.pysort l).getD (n / 2) 0
       else ((ExtractCloudwatchLogs.pysort l).getD (n / 2 - 1) 0 +
              (ExtractCloudwatchLogs.pysort l).getD (n / 2) 0) / 2) := rfl
  have e_p90 : (ExtractCloudwatchLogs.latencyStatsOf l).latency_p90 =
      (ExtractCloudwatchLogs.pysort l).getD (9 * n / 10) 0 := rfl
  have e_p95 : (ExtractCloudwatchLogs.latencyStatsOf l).latency_p95 =
      (ExtractCloudwatchLogs.pysort l).getD (19 * n / 20) 0 := rfl
  have e_p99 : (ExtractCloudwatchLogs.latencyStatsOf l).latency_p99 =
      (ExtractCloudwatchLogs.pysort l).getD (99 * n / 100) 0 := rfl
  refine ⟨?_, ?_, ?_, ?_, hn, rfl⟩
  · rw [e_min, e_med]
    by_cases hpar : n % 2 = 1
    · rw [if_pos hpar]
      exact key 0 (n / 2) (Nat.zero_le _) (by omega)
    · rw [if_neg hpar]
      have h1 := key 0 (n / 2 - 1) (Nat.zero_le _) (by omega)
      have h2 := key 0 (n / 2) (Nat.zero_le _) (by omega)
      linarith
  · rw [e_max, e_med]
    by_cases hpar : n % 2 = 1
    · rw [if_pos hpar]
      exact key (n / 2) (n - 1) (by omega) (by omega)
    · rw [if_neg hpar]
      have h1 := key (n / 2 - 1) (n - 1) (by omega) (by omega)
      have h2 := key (n / 2) (n - 1) (by omega) (by omega)
      linarith
  · rw [e_p90, e_p95]
    exact key (9 * n / 10) (19 * n / 20) (by omega) (by omega)
  · rw [e_p95, e_p99]
    exact key (19 * n / 20) (99 * n / 100) (by omega) (by omega)

/-- **C3** counterexample: the claim states that *both* copies of the
cross-run aggregator fail with an error on an empty record list, but the
copy in `extract_cloudwatch_logs.py` has no raise path at all: on zero
records it silently returns the empty dict `{}` (lines 152-153). -/
theorem cloudwatch_empty_aggregation_returns_empty_dict :
    ExtractCloudwatchLogs.calculate_average_metrics [] = [] := rfl

/-- **C3** amended: on an empty record list the k6 copy of the aggregator
raises (a generic `Exception("No metrics to average")`, not a dedicated
`EmptyInputError` class), while the cloudwatch-logs copy returns the empty
dict instead of failing. -/
theorem empty_aggregation_split_behavior :
    ExtractK6.calculate_average_metrics [] = .error "No metrics to average" ∧
    ExtractCloudwatchLogs.calculate_average_metrics [] = [] :=
  ⟨rfl, rfl⟩

/-- **C5**: for every non-empty list of records and every key present in
at least one record, the cross-run aggregator returns (without error) a
record mapping that key to the sum of its values over the records that
contain it, divided by the number of records that contain it (not by the
total record count). -/
theorem aggregator_key_average (ms : List Record) (k : String) (hne : ms ≠ [])
    (hnd : ∀ r ∈ ms, (r.map Prod.fst).Nodup) (hk : 0 < Aggregator.cntK ms k) :
    ExtractK6.calculate_average_metrics ms = .ok (Aggregator.averageMetrics ms) ∧
    (Aggregator.averageMetrics ms).lookup k =
      some (Aggregator.sumK ms k / (Aggregator.cntK ms k : ℚ)) := by
  refine ⟨?_, Aggregator.lookup_averageMetrics ms k hnd hk⟩
  rw [ExtractK6.calculate_average_metrics,
    if_neg (by simp [List.isEmpty_iff, hne])]

/-- **C5** witness: for records `[{"a": 10, "b": 4}, {"a": 20}]` the
aggregate maps `"a"` to `(10 + 20) / 2 = 15` and `"b"` to `4 / 1 = 4`. -/
theorem aggregator_key_average_example :
    ((Aggregator.averageMetrics [[("a", 10), ("b", 4)], [("a", 20)]]).lookup "a" =
      some (Aggregator.sumK [[("a", 10), ("b", 4)], [("a", 20)]] "a" /
        (Aggregator.cntK [[("a", 10), ("b", 4)], [("a", 20)]] "a" : ℚ))) ∧
    ((Aggregator.averageMetrics [[("a", 10), ("b", 4)], [("a", 20)]]).lookup "b" =
      some (Aggregator.sumK [[("a", 10), ("b", 4)], [("a", 20)]] "b" /
        (Aggregator.cntK [[("a", 10), ("b", 4)], [("a", 20)]] "b" : ℚ))) ∧
    Aggregator.sumK [[("a", 10), ("b", 4)], [("a", 20)]] "a" /
        (Aggregator.cntK [[("a", 10), ("b", 4)], [("a", 20)]] "a" : ℚ) = 15 ∧
    Aggregator.sumK [[("a", 10), ("b", 4)], [("a", 20)]] "b" /
        (Aggregator.cntK [[("a", 10), ("b", 4)], [("a", 20)]] "b" : ℚ) = 4 :=
  ⟨(aggregator_key_average [[("a", 10), ("b", 4)], [("a", 20)]] "a"
      (by decide) (by decide) (by decide)).2,
   (aggregator_key_average [[("a", 10), ("b", 4)], [("a", 20)]] "b"
      (by decide) (by decide) (by decide)).2,
   by norm_num +decide [Aggregator.sumK, Aggregator.cntK, List.lookup,
     List.filterMap_cons, show (("a" : String) == "a") = true from rfl,
     show (("b" : String) == "a") = false from rfl,
     show (("b" : String) == "b") = true from rfl],
   by norm_num +decide [Aggregator.sumK, Aggregator.cntK, List.lookup,
     List.filterMap_cons, show (("a" : String) == "a") = true from rfl,
     show (("b" : String) == "a") = false from rfl,
     show (("b" : String) == "b") = true from rfl]⟩

/-- **C6**: outlier filtering is exclusive at the threshold: an event
whose parsed latency is exactly `1.0` is retained in its operation
bucket, while an event whose parsed latency is strictly greater than `1`
(e.g. `1.0001`) is discarded and contributes to no statistic. -/
theorem outlier_threshold_exclusive (parseFloat : String → Option ℚ) (q : ℚ)
    (acc : List ℚ × List ℚ) (ev : ExtractCloudwatchLogs.Event)
    (h6 : 6 ≤ ev.message.length)
    (hlat : parseFloat (ev.message.getD 5 "") = some q) :
    (q = 1 →
      ExtractCloudwatchLogs.pyLower (ev.message.getD 2 "") = "serialize" →
      ExtractCloudwatchLogs.processEvent parseFloat acc ev =
        (acc.1 ++ [q], acc.2)) ∧
    (q = 1 →
      ExtractCloudwatchLogs.pyLower (ev.message.getD 2 "") = "deserialize" →
      ExtractCloudwatchLogs.processEvent parseFloat acc ev =
        (acc.1, acc.2 ++ [q])) ∧
    (1 < q → ExtractCloudwatchLogs.processEvent parseFloat acc ev = acc) := by
  have hne : ev.message.isEmpty = false := by
    cases hm : ev.message with
    | nil => rw [hm] at h6; simp at h6
    | cons a as => simp
  refine ⟨?_, ?_, ?_⟩
  · intro hq hop
    subst hq
    rw [ExtractCloudwatchLogs.processEvent]
    simp only [hne, Bool.false_eq_true, if_false, if_pos h6, hlat]
    rw [if_neg (by norm_num), if_pos hop]
  · intro hq hop
    subst hq
    rw [ExtractCloudwatchLogs.processEvent]
    simp only [hne, Bool.false_eq_true, if_false, if_pos h6, hlat]
    rw [if_neg (by norm_num),
      if_neg (by rw [hop]; decide), if_pos hop]
  · intro hq
    rw [ExtractCloudwatchLogs.processEvent]
    simp only [hne, Bool.false_eq_true, if_false, if_pos h6, hlat]
    rw [if_pos hq]

/-- **C6** witness: with latency `"1.0"` (parsed as exactly 1) a
`Serialize` event is retained; with latency `"1.0001"` (parsed as
`10001/10000 > 1`) the event is discarded. -/
theorem outlier_threshold_boundary_example :
    ExtractCloudwatchLogs.processEvent parseFloatDemo ([], [])
        ⟨["1", "p", "Serialize", "e", "t", "1.0"]⟩ = ([1], []) ∧
    ExtractCloudwatchLogs.processEvent parseFloatDemo ([2], [3])
        ⟨["1", "p", "Serialize", "e", "t", "1.0001"]⟩ = ([2], [3]) :=
  ⟨((outlier_threshold_exclusive parseFloatDemo 1 ([], [])
        ⟨["1", "p", "Serialize", "e", "t", "1.0"]⟩ (by decide) (by decide)).1
      rfl (by decide)).trans (by simp),
   (outlier_threshold_exclusive parseFloatDemo (mkRat 10001 10000) ([2], [3])
        ⟨["1", "p", "Serialize", "e", "t", "1.0001"]⟩ (by decide)
        (by decide)).2.2 (by decide)⟩

/-- **C10**: when exactly one operation bucket is non-empty, the final
`return [metrics['deserialize'], metrics['serialize']]` raises a
`KeyError` for the missing key, so the file yields no record even for the
non-empty bucket; the caller catches it with its generic per-file handler
and the file contributes nothing to the accumulated metric lists. -/
theorem single_bucket_keyerror (parseFloat : String → Option ℚ)
    (events : List ExtractCloudwatchLogs.Event)
    (h : ((events.foldl (ExtractCloudwatchLogs.processEvent parseFloat) ([], [])).1 = [] ∧
          (events.foldl (ExtractCloudwatchLogs.processEvent parseFloat) ([], [])).2 ≠ []) ∨
         ((events.foldl (ExtractCloudwatchLogs.processEvent parseFloat) ([], [])).1 ≠ [] ∧
          (events.foldl (ExtractCloudwatchLogs.processEvent parseFloat) ([], [])).2 = [])) :
    ExtractCloudwatchLogs.extract_cloudwatch_logs_metrics parseFloat events =
      .error "KeyError" ∧
    ∀ acc, ExtractCloudwatchLogs.processFile acc
        (ExtractCloudwatchLogs.extract_cloudwatch_logs_metrics parseFloat events) =
      acc := by
  have hmain : ExtractCloudwatchLogs.extract_cloudwatch_logs_metrics parseFloat
      events = .error "KeyError" := by
    rw [ExtractCloudwatchLogs.extract_cloudwatch_logs_metrics]
    rcases h with ⟨h1, h2⟩ | ⟨h1, h2⟩ <;>
      simp [h1, h2, ExtractCloudwatchLogs.bucketEntry, List.isEmpty_iff]
  exact ⟨hmain, fun acc => by rw [hmain]; rfl⟩

/-- **C10** witness: a file with a single valid `serialize` event (and no
`deserialize` event) yields a `KeyError` and is skipped by the caller. -/
theorem single_bucket_keyerror_example :
    ExtractCloudwatchLogs.extract_cloudwatch_logs_metrics parseFloatDemo
        [⟨["1", "p", "serialize", "e", "t", "1.0"]⟩] = .error "KeyError" ∧
    ExtractCloudwatchLogs.processFile ([], [])
        (ExtractCloudwatchLogs.extract_cloudwatch_logs_metrics parseFloatDemo
          [⟨["1", "p", "serialize", "e", "t", "1.0"]⟩]) = ([], []) :=
  ⟨(single_bucket_keyerror parseFloatDemo
      [⟨["1", "p", "serialize", "e", "t", "1.0"]⟩] (by right; constructor <;> decide)).1,
   (single_bucket_keyerror parseFloatDemo
      [⟨["1", "p", "serialize", "e", "t", "1.0"]⟩]
      (by right; constructor <;> decide)).2 ([], [])⟩

/-- **C4**: in `calculate_metric_value`, metric kinds `cpu` and `memory`
take the maximum over the per-run files of each file's maximum datapoint
value, while `network_rx` and `network_tx` take the arithmetic mean of the
per-file maxima (stated for files whose extracted maxima are positive, so
that the script's `if max_value > 0` guard keeps all of them). -/
theorem infra_aggregation_policies
    (files : List RecalculateCpuMaximums.MetricFile) (hne : files ≠ [])
    (hpos : ∀ f ∈ files,
      0 < RecalculateCpuMaximums.get_maximum_value_from_file f) :
    RecalculateCpuMaximums.calculate_metric_value "cpu" files =
      some (RecalculateCpuMaximums.pymax
          (files.map RecalculateCpuMaximums.get_maximum_value_from_file),
        files.length, "Percent") ∧
    RecalculateCpuMaximums.calculate_metric_value "memory" files =
      some (RecalculateCpuMaximums.pymax
          (files.map RecalculateCpuMaximums.get_maximum_value_from_file),
        files.length, "Percent") ∧
    RecalculateCpuMaximums.calculate_metric_value "network_rx" files =
      some ((files.map RecalculateCpuMaximums.get_maximum_value_from_file).sum /
          (files.length : ℚ),
        files.length, "Bytes") ∧
    RecalculateCpuMaximums.calculate_metric_value "network_tx" files =
      some ((files.map RecalculateCpuMaximums.get_maximum_value_from_file).sum /
          (files.length : ℚ),
        files.length, "Bytes") := by
  have hfilter :
      (files.map RecalculateCpuMaximums.get_maximum_value_from_file).filter
          (fun v => 0 < v) =
        files.map RecalculateCpuMaximums.get_maximum_value_from_file := by
    rw [List.filter_eq_self]
    intro v hv
    obtain ⟨f, hf, rfl⟩ := List.mem_map.mp hv
    exact decide_eq_true (hpos f hf)
  have hne1 : files.isEmpty = false := by simp [List.isEmpty_iff, hne]
  have hne2 : (files.map
      RecalculateCpuMaximums.get_maximum_value_from_file).isEmpty = false := by
    simp [List.isEmpty_iff, hne]
  have hlen : (files.map
      RecalculateCpuMaximums.get_maximum_value_from_file).length =
      files.length := List.length_map _ _
  refine ⟨?_, ?_, ?_, ?_⟩ <;>
    simp only [RecalculateCpuMaximums.calculate_metric_value, hne1, hfilter,
      hne2, hlen, Bool.false_eq_true, if_false] <;>
    simp +decide

/-- **C4** witness: five files whose per-file maxima are
`10, 20, 30, 40, 50` yield `50` for `cpu` and `30` for `network_rx`. -/
theorem infra_aggregation_policies_example :
    RecalculateCpuMaximums.calculate_metric_value "cpu"
        [⟨some [⟨some 10⟩]⟩, ⟨some [⟨some 20⟩]⟩, ⟨some [⟨some 30⟩]⟩,
          ⟨some [⟨some 40⟩]⟩, ⟨some [⟨some 50⟩]⟩] =
      some (50, 5, "Percent") ∧
    RecalculateCpuMaximums.calculate_metric_value "network_rx"
        [⟨some [⟨some 10⟩]⟩, ⟨some [⟨some 20⟩]⟩, ⟨some [⟨some 30⟩]⟩,
          ⟨some [⟨some 40⟩]⟩, ⟨some [⟨some 50⟩]⟩] =
      some (30, 5, "Bytes") :=
  ⟨(infra_aggregation_policies
      [⟨some [⟨some 10⟩]⟩, ⟨some [⟨some 20⟩]⟩, ⟨some [⟨some 30⟩]⟩,
        ⟨some [⟨some 40⟩]⟩, ⟨some [⟨some 50⟩]⟩]
      (by decide) (by decide)).1.trans
      (by norm_num [RecalculateCpuMaximums.pymax,
        RecalculateCpuMaximums.get_maximum_value_from_file,
        List.filterMap_cons, max_def]),
   (infra_aggregation_policies
      [⟨some [⟨some 10⟩]⟩, ⟨some [⟨some 20⟩]⟩, ⟨some [⟨some 30⟩]⟩,
        ⟨some [⟨some 40⟩]⟩, ⟨some [⟨some 50⟩]⟩]
      (by decide) (by decide)).2.2.1.trans
      (by norm_num [RecalculateCpuMaximums.get_maximum_value_from_file,
        RecalculateCpuMaximums.pymax, List.filterMap_cons, List.foldl_cons,
        List.foldl_nil, max_def])⟩

/-- **C2** amended: after cross-run aggregation the per-operation
`total_requests` equals the arithmetic *mean* of the per-file valid
observation counts — the aggregator divides every key, including
`total_requests`, by the number of contributing files — not their sum. -/
theorem aggregated_total_requests_is_mean
    (rs : List ExtractCloudwatchLogs.LatencyStats) (hne : rs ≠ []) :
    (ExtractCloudwatchLogs.calculate_average_metrics
        (rs.map ExtractCloudwatchLogs.LatencyStats.toRecord)).lookup
      "total_requests" =
      some ((rs.map fun r => (r.total_requests : ℚ)).sum / (rs.length : ℚ)) := by
  have hnd : ∀ r ∈ rs.map ExtractCloudwatchLogs.LatencyStats.toRecord,
      (r.map Prod.fst).Nodup := by
    intro r hr
    obtain ⟨st, _, rfl⟩ := List.mem_map.mp hr
    exact (by decide :
      (["total_requests", "latency_min", "latency_max", "latency_avg",
        "latency_median", "latency_p90", "latency_p95",
        "latency_p99"] : List String).Nodup)
  have hcnt : Aggregator.cntK
      (rs.map ExtractCloudwatchLogs.LatencyStats.toRecord) "total_requests" =
      rs.length := by
    rw [Aggregator.cntK, List.filter_eq_self.mpr, List.length_map]
    intro r hr
    obtain ⟨st, _, rfl⟩ := List.mem_map.mp hr
    rfl
  have hsum : Aggregator.sumK
      (rs.map ExtractCloudwatchLogs.LatencyStats.toRecord) "total_requests" =
      (rs.map fun r => (r.total_requests : ℚ)).sum := by
    rw [Aggregator.sumK, List.filterMap_map]
    congr 1
    rw [List.filterMap_eq_map_iff_forall_eq_some]
    intro st _
    rfl
  rw [ExtractCloudwatchLogs.calculate_average_metrics,
    if_neg (by simp [List.isEmpty_iff, hne]),
    Aggregator.lookup_averageMetrics _ _ hnd
      (by rw [hcnt]; exact List.length_pos.mpr hne),
    hcnt, hsum]

/-- **C9** witness: the invariants evaluated on the bucket `[2, 1]`. -/
theorem latency_stats_invariants_example :
    (ExtractCloudwatchLogs.latencyStatsOf [2, 1]).latency_min ≤
        (ExtractCloudwatchLogs.latencyStatsOf [2, 1]).latency_median ∧
    (ExtractCloudwatchLogs.latencyStatsOf [2, 1]).latency_median ≤
        (ExtractCloudwatchLogs.latencyStatsOf [2, 1]).latency_max ∧
    (ExtractCloudwatchLogs.latencyStatsOf [2, 1]).latency_p90 ≤
        (ExtractCloudwatchLogs.latencyStatsOf [2, 1]).latency_p95 ∧
    (ExtractCloudwatchLogs.latencyStatsOf [2, 1]).latency_p95 ≤
        (ExtractCloudwatchLogs.latencyStatsOf [2, 1]).latency_p99 ∧
    0 < (ExtractCloudwatchLogs.latencyStatsOf [2, 1]).total_requests ∧
    ExtractCloudwatchLogs.bucketEntry [] = none :=
  latency_stats_invariants [2, 1] (by decide)

/-! ## k6 block-lookup lemmas -/

namespace ExtractK6

theorem lookup_dataSentBlock_eq_none (d : K6Data) (k : String)
    (h : k ∉ (["data_sent_count", "data_sent_rate"] : List String)) :
    (dataSentBlock d).lookup k = none := by
  simp only [List.mem_cons, List.not_mem_nil, or_false, not_or] at h
  rw [dataSentBlock]
  cases d.metrics.lookup "data_sent" <;>
    simp [List.lookup, beq_eq_false_iff_ne.mpr h.1, beq_eq_false_iff_ne.mpr h.2]

theorem lookup_dataReceivedBlock_eq_none (d : K6Data) (k : String)
    (h : k ∉ (["data_received_count", "data_received_rate"] : List String)) :
    (dataReceivedBlock d).lookup k = none := by
  simp only [List.mem_cons, List.not_mem_nil, or_false, not_or] at h
  rw [dataReceivedBlock]
  cases d.metrics.lookup "data_received" <;>
    simp [List.lookup, beq_eq_false_iff_ne.mpr h.1, beq_eq_false_iff_ne.mpr h.2]

theorem lookup_vusBlock_eq_none (d : K6Data) (k : String)
    (h : k ≠ "vus_max") : (vusBlock d).lookup k = none := by
  rw [vusBlock]
  cases d.metrics.lookup "vus_max" <;>
    simp [List.lookup, beq_eq_false_iff_ne.mpr h]

theorem lookup_checksBlock_eq_none (d : K6Data) (k : String)
    (h : k ∉ (["success_rate_rate", "success_rate_passes",
      "success_rate_fails"] : List String)) :
    (checksBlock d).lookup k = none := by
  simp only [List.mem_cons, List.not_mem_nil, or_false, not_or] at h
  rw [checksBlock]
  cases d.metrics.lookup "checks" <;>
    simp [List.lookup, beq_eq_false_iff_ne.mpr h.1,
      beq_eq_false_iff_ne.mpr h.2.1, beq_eq_false_iff_ne.mpr h.2.2]

theorem durationBlock_eq_nil (d : K6Data)
    (hh : d.metrics.lookup "http_req_duration" = none)
    (hg : d.metrics.lookup "grpc_req_duration" = none) :
    durationBlock d = [] := by
  simp [durationBlock, is_rest, is_grpc, hh, hg]

theorem throughputBlock_eq_nil (d : K6Data)
    (hh : d.metrics.lookup "http_req_duration" = none)
    (hg : d.metrics.lookup "grpc_req_duration" = none) :
    throughputBlock d = [] := by
  simp [throughputBlock, is_rest, is_grpc, hh, hg]

end ExtractK6

/-- **C8**: protocol-variant dispatch in `extract_k6_metrics`.  A file
with `grpc_req_duration` but no `http_req_duration` fills the
`request_duration_*` keys from the gRPC block (never from the REST one),
and symmetrically; with neither key, the `request_duration_*` and
`throughput_*` keys are absent from the output while the
`data_sent`/`data_received`/`vus_max`/`checks` metrics are still
extracted when present. -/
theorem protocol_variant_dispatch (d : ExtractK6.K6Data) :
    (∀ m, d.metrics.lookup "grpc_req_duration" = some m →
      d.metrics.lookup "http_req_duration" = none →
      ExtractK6.durationBlock d = ExtractK6.requestDurationEntries m ∧
      (ExtractK6.extract_k6_metrics d).lookup "request_duration_avg" =
        some (ExtractK6.vget m "avg")) ∧
    (∀ m, d.metrics.lookup "http_req_duration" = some m →
      d.metrics.lookup "grpc_req_duration" = none →
      ExtractK6.durationBlock d = ExtractK6.requestDurationEntries m ∧
      (ExtractK6.extract_k6_metrics d).lookup "request_duration_avg" =
        some (ExtractK6.vget m "avg")) ∧
    (d.metrics.lookup "http_req_duration" = none →
      d.metrics.lookup "grpc_req_duration" = none →
      (∀ k ∈ ExtractK6.requestDurationKeys ++ ExtractK6.throughputKeys,
        (ExtractK6.extract_k6_metrics d).lookup k = none) ∧
      (∀ m, d.metrics.lookup "data_sent" = some m →
        (ExtractK6.extract_k6_metrics d).lookup "data_sent_count" =
          some (ExtractK6.vget m "count") ∧
        (ExtractK6.extract_k6_metrics d).lookup "data_sent_rate" =
          some (ExtractK6.vget m "rate")) ∧
      (∀ m, d.metrics.lookup "data_received" = some m →
        (ExtractK6.extract_k6_metrics d).lookup "data_received_count" =
          some (ExtractK6.vget m "count") ∧
        (ExtractK6.extract_k6_metrics d).lookup "data_received_rate" =
          some (ExtractK6.vget m "rate")) ∧
      (∀ m, d.metrics.lookup "vus_max" = some m →
        (ExtractK6.extract_k6_metrics d).lookup "vus_max" =
          some (ExtractK6.vget m "value")) ∧
      (∀ m, d.metrics.lookup "checks" = some m →
        (ExtractK6.extract_k6_metrics d).lookup "success_rate_rate" =
          some (ExtractK6.vget m "rate") ∧
        (ExtractK6.extract_k6_metrics d).lookup "success_rate_passes" =
          some (ExtractK6.vget m "passes") ∧
        (ExtractK6.extract_k6_metrics d).lookup "success_rate_fails" =
          some (ExtractK6.vget m "fails"))) := by
  refine ⟨?_, ?_, ?_⟩
  · intro m hg hh
    have hdur : ExtractK6.durationBlock d = ExtractK6.requestDurationEntries m := by
      simp [ExtractK6.durationBlock, ExtractK6.is_rest, ExtractK6.is_grpc, hg, hh]
    refine ⟨hdur, ?_⟩
    simp +decide [ExtractK6.extract_k6_metrics, lookup_append, hdur,
      ExtractK6.lookup_dataSentBlock_eq_none,
      ExtractK6.lookup_dataReceivedBlock_eq_none,
      ExtractK6.requestDurationEntries, lookup_cons]
  · intro m hh hg
    have hdur : ExtractK6.durationBlock d = ExtractK6.requestDurationEntries m := by
      simp [ExtractK6.durationBlock, ExtractK6.is_rest, ExtractK6.is_grpc, hg, hh]
    refine ⟨hdur, ?_⟩
    simp +decide [ExtractK6.extract_k6_metrics, lookup_append, hdur,
      ExtractK6.lookup_dataSentBlock_eq_none,
      ExtractK6.lookup_dataReceivedBlock_eq_none,
      ExtractK6.requestDurationEntries, lookup_cons]
  · intro hh hg
    have hdur := ExtractK6.durationBlock_eq_nil d hh hg
    have hthr := ExtractK6.throughputBlock_eq_nil d hh hg
    refine ⟨?_, ?_, ?_, ?_, ?_⟩
    · intro k hk
      fin_cases hk <;>
        simp +decide [ExtractK6.extract_k6_metrics, lookup_append, hdur, hthr,
          ExtractK6.lookup_dataSentBlock_eq_none,
          ExtractK6.lookup_dataReceivedBlock_eq_none,
          ExtractK6.lookup_vusBlock_eq_none,
          ExtractK6.lookup_checksBlock_eq_none]
    · intro m hm
      constructor <;>
        simp +decide [ExtractK6.extract_k6_metrics, lookup_append,
          ExtractK6.dataSentBlock, hm, lookup_cons]
    · intro m hm
      constructor <;>
        simp +decide [ExtractK6.extract_k6_metrics, lookup_append, hdur, hthr,
          ExtractK6.lookup_dataSentBlock_eq_none,
          ExtractK6.dataReceivedBlock, hm, lookup_cons]
    · intro m hm
      simp +decide [ExtractK6.extract_k6_metrics, lookup_append, hdur, hthr,
        ExtractK6.lookup_dataSentBlock_eq_none,
        ExtractK6.lookup_dataReceivedBlock_eq_none,
        ExtractK6.vusBlock, hm, lookup_cons]
    · intro m hm
      refine ⟨?_, ?_, ?_⟩ <;>
        simp +decide [ExtractK6.extract_k6_metrics, lookup_append, hdur, hthr,
          ExtractK6.lookup_dataSentBlock_eq_none,
          ExtractK6.lookup_dataReceivedBlock_eq_none,
          ExtractK6.lookup_vusBlock_eq_none,
          ExtractK6.checksBlock, hm, lookup_cons]

/-- **C8** witness: a gRPC-only file populates the duration keys from the
`grpc_req_duration` block; a file with neither key has no duration keys
but still extracts `data_sent`. -/
theorem protocol_variant_dispatch_example :
    (ExtractK6.durationBlock ⟨[("grpc_req_duration", ⟨[("avg", 7)]⟩)]⟩ =
        ExtractK6.requestDurationEntries ⟨[("avg", 7)]⟩ ∧
      (ExtractK6.extract_k6_metrics
          ⟨[("grpc_req_duration", ⟨[("avg", 7)]⟩)]⟩).lookup
        "request_duration_avg" =
        some (ExtractK6.vget ⟨[("avg", 7)]⟩ "avg")) ∧
    ((ExtractK6.extract_k6_metrics
        ⟨[("data_sent", ⟨[("count", 5), ("rate", 2)]⟩)]⟩).lookup
      "request_duration_avg" = none) ∧
    ((ExtractK6.extract_k6_metrics
        ⟨[("data_sent", ⟨[("count", 5), ("rate", 2)]⟩)]⟩).lookup
      "data_sent_count" = some (ExtractK6.vget ⟨[("count", 5), ("rate", 2)]⟩ "count")) :=
  ⟨(protocol_variant_dispatch ⟨[("grpc_req_duration", ⟨[("avg", 7)]⟩)]⟩).1
      ⟨[("avg", 7)]⟩ (by decide) (by decide),
   ((protocol_variant_dispatch
        ⟨[("data_sent", ⟨[("count", 5), ("rate", 2)]⟩)]⟩).2.2
      (by decide) (by decide)).1 "request_duration_avg" (by decide),
   (((protocol_variant_dispatch
        ⟨[("data_sent", ⟨[("count", 5), ("rate", 2)]⟩)]⟩).2.2
      (by decide) (by decide)).2.1 ⟨[("count", 5), ("rate", 2)]⟩ (by decide)).1⟩

/-- **C2** counterexample: three per-run files with 1, 2 and 3 valid
deserialize observations (plus one serialize observation each).  The claim
asserts the aggregated `total_requests` equals the sum `1 + 2 + 3 = 6` of
the valid counts; the pipeline actually produces their mean `6 / 3 = 2`,
because `calculate_average_metrics` divides every key by the file
count. -/
theorem total_requests_averaged_not_summed :
    ((ExtractCloudwatchLogs.aggregateService
        [ExtractCloudwatchLogs.extract_cloudwatch_logs_metrics parseFloatDemo
            [⟨["1", "p", "deserialize", "e", "t", "0.5"]⟩,
             ⟨["2", "p", "serialize", "e", "t", "0.5"]⟩],
         ExtractCloudwatchLogs.extract_cloudwatch_logs_metrics parseFloatDemo
            [⟨["1", "p", "deserialize", "e", "t", "0.5"]⟩,
             ⟨["3", "p", "deserialize", "e", "t", "0.5"]⟩,
             ⟨["2", "p", "serialize", "e", "t", "0.5"]⟩],
         ExtractCloudwatchLogs.extract_cloudwatch_logs_metrics parseFloatDemo
            [⟨["1", "p", "deserialize", "e", "t", "0.5"]⟩,
             ⟨["3", "p", "deserialize", "e", "t", "0.5"]⟩,
             ⟨["4", "p", "deserialize", "e", "t", "0.5"]⟩,
             ⟨["2", "p", "serialize", "e", "t", "0.5"]⟩]]).bind
      fun p => p.1.lookup "total_requests") = some 2 ∧
    ¬ ((some (2 : ℚ) : Option ℚ) = some ((1 : ℚ) + 2 + 3)) := by
  constructor
  · norm_num +decide [ExtractCloudwatchLogs.aggregateService,
      ExtractCloudwatchLogs.extract_cloudwatch_logs_metrics,
      ExtractCloudwatchLogs.processEvent, ExtractCloudwatchLogs.processFile,
      parseFloatDemo, ExtractCloudwatchLogs.pyLower,
      ExtractCloudwatchLogs.bucketEntry, ExtractCloudwatchLogs.latencyStatsOf,
      ExtractCloudwatchLogs.LatencyStats.toRecord, ExtractCloudwatchLogs.pysort,
      ExtractCloudwatchLogs.calculate_average_metrics,
      Aggregator.averageMetrics, Aggregator.tally,
      Aggregator.addRecord, Aggregator.bump,
      List.insertionSort, List.orderedInsert, List.foldl, List.lookup,
      List.filterMap_cons, Rat.mkRat_eq_div]
  · norm_num

/-- **C2** amended witness: three stats records with counts 1, 2 and 3
aggregate to `total_requests = (1 + 2 + 3) / 3 = 2`. -/
theorem aggregated_total_requests_is_mean_example :
    (ExtractCloudwatchLogs.calculate_average_metrics
        (([⟨1, 0, 0, 0, 0, 0, 0, 0⟩, ⟨2, 0, 0, 0, 0, 0, 0, 0⟩,
            ⟨3, 0, 0, 0, 0, 0, 0, 0⟩] :
          List ExtractCloudwatchLogs.LatencyStats).map
          ExtractCloudwatchLogs.LatencyStats.toRecord)).lookup
      "total_requests" = some 2 :=
  (aggregated_total_requests_is_mean
      [⟨1, 0, 0, 0, 0, 0, 0, 0⟩, ⟨2, 0, 0, 0, 0, 0, 0, 0⟩,
        ⟨3, 0, 0, 0, 0, 0, 0, 0⟩] (by decide)).trans
    (by norm_num)

end Spec2Proof
